import Mathlib

set_option maxRecDepth 4000
set_option maxHeartbeats 1000000

/-!
Verification development for the graph-building layer of `tf-rs`
(src/lib.rs, src/ops/array_ops.rs, src/train/nn.rs).

The sources consist of thin operation wrappers over a framework module
(`Scope`, `install`, `constant`, `get_shape`, `set_shape`) and over
`math_ops`/`range`, which are not part of the available sources; those
pieces are modelled from the specification (marked `Modelled from the
spec:` below).  Graph construction is embedded as explicit state passing
over a `Scope` that records, in order, every backend node created, so
that "which backend nodes does this call create" is directly observable.
Runtime values of integer tensors that are fully determined at build
time (constants, ranges, subtractions, axis-0 concatenations, shapes of
statically known tensors) are carried in a `val` field, modelled from
each operation's documented semantics in the sources.
-/

namespace TfRs

/-- The subset of the external tf crate's `DataType` enum exercised by these
sources. -/
inductive DataType
  | Bool
  | Int32
  | Int64
  | Float
  | Double
  deriving DecidableEq, Repr

/-- Type `Error` from src/lib.rs lines 16-24.  The backend `Status` payload is an
opaque foreign value; it is modelled as a `Nat` tag.  Validation failures in
the sources are `Error::Stub`; the softmax helper's message error is `Msg`. -/
inductive Error
  | TFError (status : Nat)
  | NulError
  | Stub
  | Msg (s : String)
  deriving DecidableEq, Repr

/-- A shape hint: `none` means unknown rank; a `none` entry means an unknown
dimension (spec section 3, `shape_hint`). -/
abbrev ShapeHint := Option (List (Option Int))

/-- Symbolic tensor value (spec section 3): node identity, output slot, dtype,
shape hint.  `val` additionally carries the runtime value of an integer tensor
when it is fully determined at graph-construction time. -/
structure Tensor where
  ident : Nat
  idx : Nat
  dtype : DataType
  shape : ShapeHint
  val : Option (List Int) := none
  deriving DecidableEq, Repr

/-- The kinds of backend nodes created by the operations under study. -/
inductive NodeKind
  | Const
  | ConcatV2
  | RankOp
  | ReshapeOp
  | ShapeOp
  | SizeOp
  | SliceOp
  | TransposeOp
  | SubOp
  | RangeOp
  | SoftmaxOp
  | LogSoftmaxOp
  deriving DecidableEq, Repr

/-- The observable backend state of a `Scope`: the list of backend nodes
created so far, in creation order, and the next fresh node identity. -/
structure Scope where
  nodes : List NodeKind := []
  nextId : Nat := 0
  deriving DecidableEq, Repr

/-- A graph-building computation: state passing over a `Scope`.  On error the
mutated scope is kept, matching Rust's `?` on `&mut Scope` (nodes already
created stay created). -/
def Build (α : Type) : Type := Scope → Except Error α × Scope

instance : Monad Build where
  pure a := fun s => (Except.ok a, s)
  bind m f := fun s =>
    match m s with
    | (Except.ok a, s1) => f a s1
    | (Except.error e, s1) => (Except.error e, s1)

/-- Fail with an error, leaving the scope as it is. -/
def throwB {α : Type} (e : Error) : Build α := fun s => (Except.error e, s)

/-- Lift a pure fallible computation (a descriptor constructor) into `Build`;
it does not touch the scope. -/
def liftE {α : Type} (e : Except Error α) : Build α := fun s => (e, s)

/-- Modelled from the spec: the installation algorithm's backend node creation
(spec section 4.6, steps 3 and 5; the framework module is absent from the
sources).  Creates one backend node and returns its fresh identity; finalize
succeeds in this model. -/
def installNode (k : NodeKind) : Build Nat := fun s =>
  (Except.ok s.nextId, { nodes := s.nodes ++ [k], nextId := s.nextId + 1 })

/-- Modelled from the spec: `Scope::constant` (spec section 4.2, framework
module absent from the sources) builds and installs a constant-value node and
returns its tensor; also models `Constant::new`. -/
def constantOp (dtype : DataType) (value : List Int) (shape : List Int) : Build Tensor := do
  let id ← installNode NodeKind.Const
  pure { ident := id, idx := 0, dtype := dtype, shape := some (shape.map some),
         val := some value }

/-- All dimensions of a shape-hint entry list, when every one is known. -/
def knownDims : List (Option Int) → Option (List Int)
  | [] => some []
  | some d :: rest => (knownDims rest).map (fun t => d :: t)
  | none :: _ => none

/-- The fully known dimension list of a shape hint, if any. -/
def fullVal (sh : ShapeHint) : Option (List Int) := sh.bind knownDims

/-- The validated ConcatV2 descriptor (array_ops.rs lines 35-61). -/
structure ConcatDesc where
  values : List Tensor
  axis : Tensor
  output_type : DataType

/-- Constructor `ConcatV2::new` (array_ops.rs lines 37-55): takes the first value's dtype
as the output type and fails with `Error::Stub` if any value's dtype differs.
(The source indexes `values[0]` and would panic on an empty list; that case is
modelled as `Stub` and is never reached by the callers verified here.) -/
def ConcatV2.new (values : List Tensor) (axis : Tensor) : Except Error ConcatDesc :=
  match values with
  | [] => Except.error Error.Stub
  | v0 :: _ =>
    if values.all (fun x => x.dtype == v0.dtype) then
      Except.ok { values := values, axis := axis, output_type := v0.dtype }
    else Except.error Error.Stub

/-- Install a validated ConcatV2 descriptor.  The runtime value is modelled
from the operation's documented semantics ("the data from the input tensors is
joined along the axis dimension", array_ops.rs lines 9-18): it is known when
the axis is the constant 0 and every input's value is known, in which case it
is the concatenation of the inputs' flattened values. -/
def ConcatDesc.install (d : ConcatDesc) : Build Tensor := do
  let id ← installNode NodeKind.ConcatV2
  let joined : Option (List Int) :=
    if d.axis.val = some [0] then
      (d.values.mapM (fun t : Tensor => t.val)).map List.flatten
    else none
  pure { ident := id, idx := 0, dtype := d.output_type, shape := none, val := joined }

/-- Function `concat` (array_ops.rs lines 19-31): first installs a constant node for
the axis argument, then validates via `ConcatV2::new` and installs the
ConcatV2 node. -/
def concat (values : List Tensor) (axis : Int) : Build Tensor := do
  let axisT ← constantOp DataType.Int32 [axis] []
  let d ← liftE (ConcatV2.new values axisT)
  d.install

/-- Function `rank` (array_ops.rs lines 287-300): when the static rank is known the
constant-folding shortcut installs a constant node carrying that rank;
otherwise a dynamic Rank node is installed. -/
def rank (input_tensor : Tensor) : Build Tensor :=
  match input_tensor.shape with
  | some dims => constantOp DataType.Int32 [(dims.length : Int)] []
  | none => do
      let id ← installNode NodeKind.RankOp
      pure { ident := id, idx := 0, dtype := DataType.Int32, shape := some [], val := none }

/-- The runtime result of a dynamic Rank node on an input whose runtime shape
is `runtimeShape`, modelled from the operation's documented semantics ("an
integer representing the rank of input", array_ops.rs lines 265-286). -/
def rankNodeEval (runtimeShape : List Int) : Int := (runtimeShape.length : Int)

/-- The validated Shape descriptor (array_ops.rs lines 412-448). -/
structure ShapeDesc where
  tensor : Tensor
  output_type : DataType

/-- Constructor `Shape::new` (array_ops.rs lines 413-443): an explicit output type must be
`Int64` or `Int32`, otherwise `Error::Stub`; with no output type given the
default is `Int32`.  (The source's `else if output_type.len() > 0` arm is
unreachable, since `get(0)` returning `None` forces length 0.) -/
def Shape.new (tensor : Tensor) (output_type : List DataType) : Except Error ShapeDesc :=
  match output_type.head? with
  | some DataType.Int64 => Except.ok { tensor := tensor, output_type := DataType.Int64 }
  | some DataType.Int32 => Except.ok { tensor := tensor, output_type := DataType.Int32 }
  | some _ => Except.error Error.Stub
  | none => Except.ok { tensor := tensor, output_type := DataType.Int32 }

/-- Install a validated Shape descriptor.  The runtime value is modelled from
the operation's documented semantics ("a 1-D integer tensor representing the
shape of input", array_ops.rs lines 391-393): known when the input's static
shape is fully known. -/
def ShapeDesc.install (d : ShapeDesc) : Build Tensor := do
  let id ← installNode NodeKind.ShapeOp
  pure { ident := id, idx := 0, dtype := d.output_type,
         shape := d.tensor.shape.map (fun dims => [some (dims.length : Int)]),
         val := fullVal d.tensor.shape }

/-- Function `shape` (array_ops.rs lines 394-410): wraps the optional output type into
a list, validates via `Shape::new`, installs. -/
def shapeOp (tensor : Tensor) (out_type : Option DataType) : Build Tensor := do
  let ot := match out_type with
    | some v => [v]
    | none => []
  let d ← liftE (Shape.new tensor ot)
  d.install

/-- Function `size` (array_ops.rs lines 467-481).  The runtime value is modelled from
its documented semantics ("an int32 representing the number of elements in
input", array_ops.rs lines 464-466): the product of the dimensions, known when
the input's static shape is fully known. -/
def sizeOp (input : Tensor) : Build Tensor := do
  let id ← installNode NodeKind.SizeOp
  pure { ident := id, idx := 0, dtype := DataType.Int32, shape := some [],
         val := (fullVal input.shape).map (fun dims => [dims.prod]) }

/-- Modelled from the Reshape documentation in the sources (array_ops.rs lines
315-331) and the backend's finalize-or-fail contract (spec sections 4.6 and 6):
resolve a requested shape against the input's statically known element count.
A `-1` entry (at most one) is computed so that the total size stays constant;
a mismatched element count is a backend finalize failure (`TFError`).  When the
requested shape is not statically known the resulting static shape is unknown. -/
def reshapeInfer (input : ShapeHint) (newShape : Option (List Int)) : Except Error ShapeHint :=
  match newShape with
  | none => Except.ok none
  | some v =>
    let inCount : Option Int := (input.bind knownDims).map List.prod
    if v.all (fun d => 0 ≤ d) then
      match inCount with
      | some c =>
        if v.prod = c then Except.ok (some (v.map some)) else Except.error (Error.TFError 0)
      | none => Except.ok (some (v.map some))
    else if v.filter (fun d => d < 0) = [-1] then
      let p : Int := (v.filter (fun d => 0 ≤ d)).prod
      match inCount with
      | some c =>
        if 0 < p ∧ c % p = 0 then
          Except.ok (some ((v.map (fun d => if d < 0 then c / p else d)).map some))
        else Except.error (Error.TFError 0)
      | none => Except.ok none
    else Except.error (Error.TFError 0)

/-- Function `reshape` (array_ops.rs lines 333-352) with the shape argument already a
tensor (the `TensorOps::into_tensor` conversion of an existing tensor is the
identity).  On a finalize failure no node is created (spec section 4.6 step 4). -/
def reshapeOp (tensor : Tensor) (shapeT : Tensor) : Build Tensor := do
  let sh ← liftE (reshapeInfer tensor.shape shapeT.val)
  let id ← installNode NodeKind.ReshapeOp
  pure { ident := id, idx := 0, dtype := tensor.dtype, shape := sh, val := none }

/-- Function `reshape` with a value slice as its shape argument: `into_tensor` first
installs a constant node holding the requested shape. -/
def reshapeConst (tensor : Tensor) (v : List Int) : Build Tensor := do
  let shapeT ← constantOp DataType.Int32 v [(v.length : Int)]
  reshapeOp tensor shapeT

/-- Function `slice` (array_ops.rs lines 592-631) as called by `flatten_outer_dims`:
`begin` is already a tensor, the `size` argument is an integer literal that
`into_tensor` converts to a constant node first. -/
def sliceOpC (input : Tensor) (_begin : Tensor) (sizeArg : Int) : Build Tensor := do
  let _sizeT ← constantOp DataType.Int32 [sizeArg] []
  let id ← installNode NodeKind.SliceOp
  pure { ident := id, idx := 0, dtype := input.dtype, shape := none, val := none }

/-- Function `transpose` with an explicit permutation (array_ops.rs lines 679-696, the
`Some` branch; the permutation is already a tensor, so `into_tensor` adds no
node).  The result's static shape is modelled as unknown, per the sources' own
account that the transpose sequence "may erase its static shape" (nn.rs line
288) and spec section 4.7. -/
def transposeOp (a : Tensor) (_perm : Tensor) : Build Tensor := do
  let id ← installNode NodeKind.TransposeOp
  pure { ident := id, idx := 0, dtype := a.dtype, shape := none, val := none }

/-- Modelled from the spec: `math_ops::sub` (src/ops/math_ops.rs is absent) is
a thin wrapper installing one Sub node (spec section 2: op wrappers are "thin,
repetitive consumers" of the framework).  A known scalar difference propagates
into the value field. -/
def subOp (a b : Tensor) : Build Tensor := do
  let id ← installNode NodeKind.SubOp
  let v : Option (List Int) :=
    match a.val, b.val with
    | some [x], some [y] => some [x - y]
    | _, _ => none
  pure { ident := id, idx := 0, dtype := a.dtype, shape := a.shape, val := v }

/-- Function `math_ops::sub` called with an integer literal as second argument:
`into_tensor` converts it to a constant node first. -/
def subConst (a : Tensor) (k : Int) : Build Tensor := do
  let kT ← constantOp DataType.Int32 [k] []
  subOp a kT

/-- The integer sequence `[start, start+1, ..., limit-1]`. -/
def rangeList (start limit : Int) : List Int :=
  (List.range (limit - start).toNat).map (fun i => start + (i : Int))

/-- Modelled from the spec: `ops::range` (absent from the sources) is a thin
wrapper installing one Range node; with constant bounds and unit step its
runtime value is the integer sequence from `start` (inclusive) to `limit`
(exclusive). -/
def rangeOp (start limit _delta : Int) : Build Tensor := do
  let id ← installNode NodeKind.RangeOp
  pure { ident := id, idx := 0, dtype := DataType.Int32,
         shape := some [some ((limit - start).toNat : Int)],
         val := some (rangeList start limit) }

/-- Dimension compatibility for `set_shape`: a fixed dimension only matches
itself; an unknown dimension matches anything. -/
def dimCompat : Option Int → Option Int → Bool
  | some a, some b => a == b
  | _, _ => true

/-- Shape compatibility for `set_shape` (spec section 4.3): an unknown rank is
compatible with anything; two known ranks must agree and fixed dimensions must
match pointwise. -/
def shapeCompat : ShapeHint → ShapeHint → Bool
  | none, _ => true
  | some _, none => true
  | some a, some b => a.length == b.length && (List.zip a b).all (fun p => dimCompat p.1 p.2)

/-- Modelled from the spec: `Tensor::set_shape` (spec section 4.3, framework
module absent) asserts a shape on a tensor, failing when it is incompatible in
rank or fixed dimensions with the already-known shape; no backend node is
created. -/
def setShape (t : Tensor) (sh : ShapeHint) : Build Tensor := fun s =>
  if shapeCompat t.shape sh then (Except.ok { t with shape := sh }, s)
  else (Except.error Error.Stub, s)

/-- Install the primitive Softmax or LogSoftmax node (`Softmax::new` /
`LogSoftmax::new` plus install, nn.rs lines 123-131 and 194-202); the output
keeps the input's dtype and shape ("Same shape as logits"). -/
def softmaxPrim (logits : Tensor) (is_log : Bool) : Build Tensor := do
  let id ← installNode (if is_log then NodeKind.LogSoftmaxOp else NodeKind.SoftmaxOp)
  pure { ident := id, idx := 0, dtype := logits.dtype, shape := logits.shape, val := none }

/-- The permutation-index tensor built inside `swap_axis` (nn.rs lines
238-241): `concat([range(0, dim_index, 1), last_index,
range(0, dim_index + 1, 1), [dim_index]], 0)`. -/
def swap_axis_perm (dim_index : Int) (last_index : Tensor) : Build Tensor := do
  let r0 ← rangeOp 0 dim_index 1
  let r1 ← rangeOp 0 (dim_index + 1) 1
  let r2 ← constantOp DataType.Int32 [dim_index] []
  concat [r0, last_index, r1, r2] 0

/-- Function `swap_axis` (nn.rs lines 231-243): builds the index tensor and transposes
`logits` by it. -/
def swap_axis (logits : Tensor) (dim_index : Int) (last_index : Tensor) : Build Tensor := do
  let c ← swap_axis_perm dim_index last_index
  transposeOp logits c

/-- The 2-D shape computed by the static branch of `flatten_outer_dims` (nn.rs
lines 308-324): defined only when every dimension is known (`product_valid`);
the product loop runs over `&shape[..shape.len()]`, that is over ALL
dimensions including the last, and the result is `[product, last dimension]`.
(On a rank-0 input the source would panic at `shape.last().unwrap()`; that
case is modelled as `none` and never reached here.) -/
def flattenStaticShape (shape : List (Option Int)) : Option (List Int) :=
  match knownDims shape with
  | none => none
  | some dims =>
    match dims.getLast? with
    | none => none
    | some last => some [dims.prod, last]

/-- The 2-D shape the claim (and the function's own doc comment) prescribe:
the product of all dimensions EXCEPT the last, then the last dimension. -/
def flattenSpecShape (dims : List Int) : Option (List Int) :=
  match dims.getLast? with
  | none => none
  | some last => some [dims.dropLast.prod, last]

/-- Function `flatten_outer_dims` (nn.rs lines 294-326): rank, shape, slice out the
last dimension, concatenate with `[1]`, reshape; then, when the input's static
shape is fully known, reshape again to the statically computed 2-D shape. -/
def flatten_outer_dims (logits : Tensor) : Build Tensor := do
  let r ← rank logits
  let s0 ← shapeOp logits none
  let s1 ← subConst r 1
  let last_dim_size ← sliceOpC s0 s1 1
  let c0 ← constantOp DataType.Int32 [1] []
  let c ← concat [c0, last_dim_size] 0
  let output ← reshapeOp logits c
  match logits.shape with
  | none => pure output
  | some sh =>
    match flattenStaticShape sh with
    | none => pure output
    | some os => reshapeConst output os

/-- The error message raised by `softmax_helper` when the static rank of the
logits is unknown (nn.rs line 250). -/
def softmaxShapeMsg : String :=
  "shape of logits tensor must be defined for softmax operation."

/-- Function `softmax_helper` (nn.rs lines 223-291): errors when the static rank is
unknown; installs the primitive op directly when the rank is exactly 2 and the
target dimension is the last; otherwise swaps the target dimension with the
last, flattens, applies the primitive op, reshapes and swaps back, and
re-asserts the original static shape via `set_shape`. -/
def softmax_helper (logits0 : Tensor) (is_log_softmax : Bool) (dim : Int) : Build Tensor :=
  match logits0.shape with
  | none => throwB (Error.Msg softmaxShapeMsg)
  | some dims =>
    let ndims : Int := (dims.length : Int)
    if dims.length = 2 ∧ (dim = -1 ∨ dim = ndims - 1) then
      softmaxPrim logits0 is_log_softmax
    else do
      let input_rank ← rank logits0
      let n ← constantOp DataType.Int32 [1] []
      let s ← subOp input_rank n
      let logits1 ← swap_axis logits0 dim s
      let shape_after_swap ← shapeOp logits1 none
      let logits2 ← flatten_outer_dims logits1
      let output0 ← softmaxPrim logits2 is_log_softmax
      let output1 ← reshapeOp output0 shape_after_swap
      let output2 ← swap_axis output1 dim s
      setShape output2 (some dims)

/-- Function `softmax` (nn.rs lines 180-192). -/
def softmax (logits : Tensor) (dim : Int) : Build Tensor :=
  softmax_helper logits false dim

/-- Function `log_softmax` (nn.rs lines 109-121). -/
def log_softmax (logits : Tensor) (dim : Int) : Build Tensor :=
  softmax_helper logits true dim

/-- The index sequence the claim prescribes for `swap_axis`: the permutation
of `0..n-1` exchanging position `d` with position `n-1` and fixing the rest. -/
def swapPermSpec (d n : Nat) : List Int :=
  (List.range n).map (fun i =>
    if i = d then ((n : Int) - 1) else if i = n - 1 then (d : Int) else (i : Int))

/-! Evaluation lemmas for the `Build` state monad, and helper lemmas. -/

@[simp] theorem bind_apply {α β : Type} (m : Build α) (f : α → Build β) (s : Scope) :
    (m >>= f) s =
      match m s with
      | (Except.ok a, s1) => f a s1
      | (Except.error e, s1) => (Except.error e, s1) := rfl

@[simp] theorem pure_apply {α : Type} (a : α) (s : Scope) :
    (pure a : Build α) s = (Except.ok a, s) := rfl

@[simp] theorem throwB_apply {α : Type} (e : Error) (s : Scope) :
    (throwB e : Build α) s = (Except.error e, s) := rfl

@[simp] theorem liftE_apply {α : Type} (e : Except Error α) (s : Scope) :
    liftE e s = (e, s) := rfl

@[simp] theorem installNode_apply (k : NodeKind) (s : Scope) :
    installNode k s =
      (Except.ok s.nextId, { nodes := s.nodes ++ [k], nextId := s.nextId + 1 }) := rfl

@[simp] theorem constantOp_apply (dt : DataType) (v sh : List Int) (s : Scope) :
    constantOp dt v sh s =
      (Except.ok { ident := s.nextId, idx := 0, dtype := dt, shape := some (sh.map some),
                   val := some v },
       { nodes := s.nodes ++ [NodeKind.Const], nextId := s.nextId + 1 }) := rfl

theorem all_dtype_eq_false (values : List Tensor) (v0 x : Tensor)
    (hx : x ∈ values) (hne : x.dtype ≠ v0.dtype) :
    values.all (fun u => u.dtype == v0.dtype) = false := by
  cases hab : values.all (fun u => u.dtype == v0.dtype)
  · rfl
  · exact ((hne (by simpa using List.all_eq_true.mp hab x hx)).elim)

/-- C1 counterexample: concatenating an Int32 tensor with a Float tensor fails
with the validation error `Error.Stub`, but the backend trace of the call is
`[Const]` — the constant node installed for the axis argument before
validation — not the empty trace the claim requires. -/
theorem C1_counterexample :
    concat [{ ident := 100, idx := 0, dtype := DataType.Int32,
              shape := some [some 2, some 3], val := none },
            { ident := 101, idx := 0, dtype := DataType.Float,
              shape := some [some 2, some 3], val := none }] 0
        { nodes := [], nextId := 0 } =
      (Except.error Error.Stub, { nodes := [NodeKind.Const], nextId := 1 }) ∧
    ([NodeKind.Const] : List NodeKind) ≠ [] := by
  exact ⟨rfl, by decide⟩

/-- C1 (amended): for every call of `concat` whose input list contains a
tensor whose dtype differs from the first value's dtype, the call fails with
the validation error `Error.Stub` and installs no ConcatV2 node — but exactly
one backend node, the constant for the axis argument, is created before
validation runs. -/
theorem C1_concat_mixed_dtype (values : List Tensor) (v0 : Tensor) (vs : List Tensor)
    (x : Tensor) (axis : Int) (s : Scope)
    (hv : values = v0 :: vs) (hx : x ∈ values) (hne : x.dtype ≠ v0.dtype) :
    concat values axis s =
      (Except.error Error.Stub,
       { nodes := s.nodes ++ [NodeKind.Const], nextId := s.nextId + 1 }) := by
  have hall := all_dtype_eq_false values v0 x hx hne
  subst hv
  simp [concat, ConcatV2.new, hall]

/-- Closed witness for `C1_concat_mixed_dtype`. -/
theorem C1_concat_mixed_dtype_witness :
    concat [{ ident := 100, idx := 0, dtype := DataType.Int32,
              shape := some [some 2, some 3], val := none },
            { ident := 101, idx := 0, dtype := DataType.Float,
              shape := some [some 2, some 3], val := none }] 1
        { nodes := [NodeKind.SizeOp], nextId := 7 } =
      (Except.error Error.Stub,
       { nodes := [NodeKind.SizeOp, NodeKind.Const], nextId := 8 }) := by
  simpa using C1_concat_mixed_dtype
    [{ ident := 100, idx := 0, dtype := DataType.Int32,
       shape := some [some 2, some 3], val := none },
     { ident := 101, idx := 0, dtype := DataType.Float,
       shape := some [some 2, some 3], val := none }]
    { ident := 100, idx := 0, dtype := DataType.Int32,
      shape := some [some 2, some 3], val := none }
    [{ ident := 101, idx := 0, dtype := DataType.Float,
       shape := some [some 2, some 3], val := none }]
    { ident := 101, idx := 0, dtype := DataType.Float,
      shape := some [some 2, some 3], val := none }
    1 { nodes := [NodeKind.SizeOp], nextId := 7 } rfl (by decide) (by decide)

/-- C2, the code evaluated at the failing input: for input static shape
`[2, 3]` the static branch of `flatten_outer_dims` computes the 2-D shape
`[6, 3]` — the product loop multiplies ALL dimensions, the last included —
while the claim (and the function's own doc comment, "flattens logits' outer
dimensions and keep its last dimension") requires `[2, 3]`, the product of
the leading dimensions only; the two disagree. -/
theorem C2_flatten_product_bug :
    flattenStaticShape [some 2, some 3] = some [6, 3] ∧
    flattenSpecShape [2, 3] = some [2, 3] ∧
    flattenStaticShape [some 2, some 3] ≠ flattenSpecShape [2, 3] := by
  refine ⟨by decide, by decide, by decide⟩

/-- C3, the code evaluated at the failing input: for target dimension 0 of a
rank-3 input (`last_index` carrying the value 2), the index tensor built by
`swap_axis` has runtime value `[2, 0, 0]` — position 0 duplicated, position 1
dropped — whereas the claim requires the permutation `[2, 1, 0]` that
exchanges position 0 with position 2 and fixes the rest. -/
theorem C3_swap_axis_not_permutation :
    (∃ (c : Tensor) (s1 : Scope),
        swap_axis_perm 0 { ident := 50, idx := 0, dtype := DataType.Int32,
                           shape := some [], val := some [2] }
            { nodes := [], nextId := 0 } = (Except.ok c, s1) ∧
        c.val = some [2, 0, 0]) ∧
    swapPermSpec 0 3 = [2, 1, 0] ∧ ([2, 0, 0] : List Int) ≠ [2, 1, 0] := by
  exact ⟨⟨_, _, rfl, rfl⟩, by decide, by decide⟩

theorem rank_known_apply (t : Tensor) (dims : List (Option Int)) (s : Scope)
    (h : t.shape = some dims) :
    rank t s =
      (Except.ok { ident := s.nextId, idx := 0, dtype := DataType.Int32, shape := some [],
                   val := some [(dims.length : Int)] },
       { nodes := s.nodes ++ [NodeKind.Const], nextId := s.nextId + 1 }) := by
  simp [rank, h]

/-- C4: when the static rank of the input is known (covering every rank 0-8),
the `rank` operation takes the constant-folding shortcut — it installs a single
constant node and no Rank node — and the constant's value equals the result
the dynamic Rank node would produce on every runtime input consistent with the
static shape (`rankNodeEval`); when the static rank is unknown it installs the
dynamic Rank node instead. -/
theorem C4_rank_shortcut (t : Tensor) (dims : List (Option Int)) (rs : List Int) (s : Scope)
    (hknown : t.shape = some dims) (_h8 : dims.length ≤ 8) (hrs : rs.length = dims.length) :
    (rank t s =
      (Except.ok { ident := s.nextId, idx := 0, dtype := DataType.Int32, shape := some [],
                   val := some [rankNodeEval rs] },
       { nodes := s.nodes ++ [NodeKind.Const], nextId := s.nextId + 1 })) ∧
    (∀ (u : Tensor) (s1 : Scope), u.shape = none →
      rank u s1 =
        (Except.ok { ident := s1.nextId, idx := 0, dtype := DataType.Int32, shape := some [],
                     val := none },
         { nodes := s1.nodes ++ [NodeKind.RankOp], nextId := s1.nextId + 1 })) := by
  refine ⟨?_, ?_⟩
  · have hval : rankNodeEval rs = (dims.length : Int) := by
      simp [rankNodeEval, hrs]
    rw [rank_known_apply t dims s hknown, hval]
  · intro u s1 hu
    simp [rank, hu]

/-- Closed witness for `C4_rank_shortcut` at a rank-2 static shape and a
consistent runtime shape. -/
theorem C4_rank_shortcut_witness :
    rank { ident := 7, idx := 0, dtype := DataType.Float,
           shape := some [some 3, some 3], val := none } { nodes := [], nextId := 0 } =
      (Except.ok { ident := 0, idx := 0, dtype := DataType.Int32, shape := some [],
                   val := some [2] },
       { nodes := [NodeKind.Const], nextId := 1 }) := by
  simpa using (C4_rank_shortcut
    { ident := 7, idx := 0, dtype := DataType.Float, shape := some [some 3, some 3], val := none }
    [some 3, some 3] [3, 3] { nodes := [], nextId := 0 } rfl (by decide) rfl).1

/-- C5: for every rank-3 input of fully known static shape `[a, b, c]` and
target dimension 0, the composite softmax succeeds and takes the fully
dynamic path.  The backend trace is, in order: the rank computation (a
constant, via the folding shortcut), the `rank - 1` subtraction, the
axis-swap scaffold (two ranges, two constants, a ConcatV2, the first
Transpose), the post-swap Shape node, the flatten scaffold (dynamic Rank,
Shape, Sub, Slice, ConcatV2 with their constants, and its Reshape), the
single primitive Softmax node, the reshape back, the inverse axis-swap
scaffold ending in the second Transpose — and after the final `set_shape`
re-assertion the output's shape equals the input's shape. -/
theorem C5_softmax_dynamic_path (a b c : Int) (dt : DataType) :
    softmax { ident := 0, idx := 0, dtype := dt, shape := some [some a, some b, some c],
              val := none } 0 { nodes := [], nextId := 0 } =
      (Except.ok { ident := 27, idx := 0, dtype := dt,
                   shape := some [some a, some b, some c], val := none },
       { nodes := [NodeKind.Const, NodeKind.Const, NodeKind.SubOp, NodeKind.RangeOp,
                   NodeKind.RangeOp, NodeKind.Const, NodeKind.Const, NodeKind.ConcatV2,
                   NodeKind.TransposeOp, NodeKind.ShapeOp, NodeKind.RankOp, NodeKind.ShapeOp,
                   NodeKind.Const, NodeKind.SubOp, NodeKind.Const, NodeKind.SliceOp,
                   NodeKind.Const, NodeKind.Const, NodeKind.ConcatV2, NodeKind.ReshapeOp,
                   NodeKind.SoftmaxOp, NodeKind.ReshapeOp, NodeKind.RangeOp, NodeKind.RangeOp,
                   NodeKind.Const, NodeKind.Const, NodeKind.ConcatV2, NodeKind.TransposeOp],
         nextId := 28 }) := by
  rfl

/-- C6: for a rank-2 input whose target dimension is the last (`dim = -1` or
`dim = 1`), the composite softmax installs exactly one primitive Softmax node
and nothing else — no rank, transpose or reshape scaffolding — and the output
keeps the input's dtype and shape. -/
theorem C6_softmax_rank2_last_dim (a b : Int) (dt : DataType) (dim : Int) (s : Scope)
    (hdim : dim = -1 ∨ dim = 1) :
    softmax { ident := 0, idx := 0, dtype := dt, shape := some [some a, some b], val := none }
        dim s =
      (Except.ok { ident := s.nextId, idx := 0, dtype := dt, shape := some [some a, some b],
                   val := none },
       { nodes := s.nodes ++ [NodeKind.SoftmaxOp], nextId := s.nextId + 1 }) := by
  rcases hdim with h | h <;> subst h <;> rfl

/-- Closed witness for `C6_softmax_rank2_last_dim`. -/
theorem C6_softmax_rank2_last_dim_witness :
    softmax { ident := 0, idx := 0, dtype := DataType.Float,
              shape := some [some 4, some 5], val := none } 1 { nodes := [], nextId := 0 } =
      (Except.ok { ident := 0, idx := 0, dtype := DataType.Float,
                   shape := some [some 4, some 5], val := none },
       { nodes := [NodeKind.SoftmaxOp], nextId := 1 }) := by
  simpa using C6_softmax_rank2_last_dim 4 5 DataType.Float 1
    { nodes := [], nextId := 0 } (Or.inr rfl)

theorem knownDims_map_some (xs : List Int) : knownDims (xs.map some) = some xs := by
  induction xs with
  | nil => rfl
  | cons x rest ih => simp [knownDims, ih]

theorem map_subst_of_no_neg (v : List Int) (q : Int)
    (h : v.filter (fun d => d < 0) = []) :
    v.map (fun d => if d < 0 then q else d) = v := by
  induction v with
  | nil => rfl
  | cons d rest ih =>
    by_cases hd : d < 0
    · simp [List.filter_cons, hd] at h
    · have h2 : rest.filter (fun d => d < 0) = [] := by
        simpa [List.filter_cons, hd] using h
      simp [hd, ih h2]

theorem filter_nonneg_of_no_neg (v : List Int)
    (h : v.filter (fun d => d < 0) = []) :
    v.filter (fun d => 0 ≤ d) = v := by
  induction v with
  | nil => rfl
  | cons d rest ih =>
    by_cases hd : d < 0
    · simp [List.filter_cons, hd] at h
    · have h2 : rest.filter (fun d => d < 0) = [] := by
        simpa [List.filter_cons, hd] using h
      simp [List.filter_cons, not_lt.mp hd, ih h2]

theorem subst_prod (v : List Int) (q : Int)
    (h : v.filter (fun d => d < 0) = [-1]) :
    (v.map (fun d => if d < 0 then q else d)).prod =
      q * (v.filter (fun d => 0 ≤ d)).prod := by
  induction v with
  | nil => simp at h
  | cons d rest ih =>
    by_cases hd : d < 0
    · have hsplit : d = -1 ∧ rest.filter (fun d => d < 0) = [] := by
        simpa [List.filter_cons, hd] using h
      have hmap := map_subst_of_no_neg rest q hsplit.2
      have hfil := filter_nonneg_of_no_neg rest hsplit.2
      have hd0 : ¬ 0 ≤ d := not_le.mpr hd
      simp [List.filter_cons, hd, hd0, hmap, hfil]
    · have hrest : rest.filter (fun d => d < 0) = [-1] := by
        simpa [List.filter_cons, hd] using h
      have hd0 : 0 ≤ d := not_lt.mp hd
      simp [List.filter_cons, hd, hd0, ih hrest]
      ring

theorem reshapeInfer_known (xs v : List Int) :
    reshapeInfer (some (xs.map some)) (some v) =
      (if v.all (fun d => 0 ≤ d) then
        (if v.prod = xs.prod then Except.ok (some (v.map some))
         else Except.error (Error.TFError 0))
      else if v.filter (fun d => d < 0) = [-1] then
        (if 0 < (v.filter (fun d => 0 ≤ d)).prod ∧
              xs.prod % (v.filter (fun d => 0 ≤ d)).prod = 0 then
          Except.ok (some ((v.map (fun d =>
            if d < 0 then xs.prod / (v.filter (fun d => 0 ≤ d)).prod else d)).map some))
        else Except.error (Error.TFError 0))
      else Except.error (Error.TFError 0)) := by
  simp [reshapeInfer, knownDims_map_some]

theorem reshapeInfer_ok (xs v : List Int) (sh : ShapeHint)
    (h : reshapeInfer (some (xs.map some)) (some v) = Except.ok sh) :
    ∃ w : List Int, sh = some (w.map some) ∧ w.prod = xs.prod := by
  rw [reshapeInfer_known] at h
  by_cases h1 : v.all (fun d => 0 ≤ d)
  · rw [if_pos h1] at h
    by_cases h2 : v.prod = xs.prod
    · rw [if_pos h2] at h
      exact ⟨v, (Except.ok.inj h).symm, h2⟩
    · rw [if_neg h2] at h
      exact absurd h (by simp)
  · rw [if_neg h1] at h
    by_cases h3 : v.filter (fun d => d < 0) = [-1]
    · rw [if_pos h3] at h
      by_cases h4 : 0 < (v.filter (fun d => 0 ≤ d)).prod ∧
          xs.prod % (v.filter (fun d => 0 ≤ d)).prod = 0
      · rw [if_pos h4] at h
        refine ⟨_, (Except.ok.inj h).symm, ?_⟩
        rw [subst_prod v _ h3]
        exact Int.ediv_mul_cancel (Int.dvd_of_emod_eq_zero h4.2)
      · rw [if_neg h4] at h
        exact absurd h (by simp)
    · rw [if_neg h3] at h
      exact absurd h (by simp)

theorem reshapeConst_eval (t : Tensor) (v : List Int) (s : Scope) :
    reshapeConst t v s =
      match reshapeInfer t.shape (some v) with
      | Except.error e =>
          (Except.error e, { nodes := s.nodes ++ [NodeKind.Const], nextId := s.nextId + 1 })
      | Except.ok sh =>
          (Except.ok { ident := s.nextId + 1, idx := 0, dtype := t.dtype, shape := sh,
                       val := none },
           { nodes := s.nodes ++ [NodeKind.Const, NodeKind.ReshapeOp],
             nextId := s.nextId + 1 + 1 }) := by
  cases hinf : reshapeInfer t.shape (some v) with
  | error e => simp [reshapeConst, reshapeOp, hinf]
  | ok sh => simp [reshapeConst, reshapeOp, hinf]

/-- C7: for every tensor `x` of fully known static shape `xs` and every
requested shape `v` that `reshape` accepts ("valid"), reshaping `x` to `v` and
the result back to `xs` succeeds and yields a tensor whose declared shape and
dtype equal those of `x` (shape equality only: the result is a fresh node). -/
theorem C7_reshape_roundtrip (x : Tensor) (xs v : List Int) (s : Scope) (s1 : Scope)
    (y : Tensor)
    (hx : x.shape = some (xs.map some))
    (hnn : xs.all (fun d => 0 ≤ d) = true)
    (h1 : reshapeConst x v s = (Except.ok y, s1)) :
    ∃ (z : Tensor) (s2 : Scope),
      reshapeConst y xs s1 = (Except.ok z, s2) ∧ z.shape = x.shape ∧ z.dtype = x.dtype := by
  rw [reshapeConst_eval, hx] at h1
  cases hinf : reshapeInfer (some (xs.map some)) (some v) with
  | error e =>
    rw [hinf] at h1
    simp at h1
  | ok sh =>
    rw [hinf] at h1
    obtain ⟨w, hw, hprod⟩ := reshapeInfer_ok xs v sh hinf
    simp only [Prod.mk.injEq, Except.ok.injEq] at h1
    obtain ⟨hy, hs1⟩ := h1
    subst hy
    subst hs1
    have hsecond : reshapeInfer sh (some xs) = Except.ok (some (xs.map some)) := by
      rw [hw, reshapeInfer_known]
      simp [hnn, hprod]
    rw [reshapeConst_eval]
    simp only
    rw [hsecond]
    exact ⟨_, _, rfl, hx.symm, rfl⟩

/-- Closed witness for `C7_reshape_roundtrip`: a `[2, 3]` Float tensor
reshaped to `[3, 2]` and back. -/
theorem C7_reshape_roundtrip_witness :
    ∃ (z : Tensor) (s2 : Scope),
      reshapeConst { ident := 1, idx := 0, dtype := DataType.Float,
                     shape := some [some 3, some 2], val := none } [2, 3]
          { nodes := [NodeKind.Const, NodeKind.ReshapeOp], nextId := 2 } =
        (Except.ok z, s2) ∧
      z.shape = some [some 2, some 3] ∧ z.dtype = DataType.Float := by
  have h := C7_reshape_roundtrip
    { ident := 0, idx := 0, dtype := DataType.Float, shape := some [some 2, some 3], val := none }
    [2, 3] [3, 2] { nodes := [], nextId := 0 }
    { nodes := [NodeKind.Const, NodeKind.ReshapeOp], nextId := 2 }
    { ident := 1, idx := 0, dtype := DataType.Float, shape := some [some 3, some 2], val := none }
    rfl (by decide) rfl
  simpa using h

/-- C8: the shape operation with explicit Int64 output type applied to a
tensor of static shape `[3, 3]` succeeds, installs one Shape node, has output
dtype Int64 and runtime value `[3, 3]`; the size operation applied to a
tensor of static shape `[2, 2, 3]` succeeds, installs one Size node and has
runtime value `12`. -/
theorem C8_shape_size :
    (∃ (out : Tensor) (s1 : Scope),
        shapeOp { ident := 0, idx := 0, dtype := DataType.Float,
                  shape := some [some 3, some 3], val := none } (some DataType.Int64)
            { nodes := [], nextId := 0 } = (Except.ok out, s1) ∧
        out.dtype = DataType.Int64 ∧ out.val = some [3, 3] ∧
        s1.nodes = [NodeKind.ShapeOp]) ∧
    (∃ (out2 : Tensor) (s2 : Scope),
        sizeOp { ident := 0, idx := 0, dtype := DataType.Float,
                 shape := some [some 2, some 2, some 3], val := none }
            { nodes := [], nextId := 0 } = (Except.ok out2, s2) ∧
        out2.val = some [12] ∧ s2.nodes = [NodeKind.SizeOp]) := by
  exact ⟨⟨_, _, rfl, rfl, rfl, rfl⟩, ⟨_, _, rfl, rfl, rfl⟩⟩

/-- C9: descriptor-constructor validation failures — a dtype mismatch across a
concat input list, an unsupported output type for the shape operation — are
returned as `Error.Stub`, a value distinct from every backend status error
`Error.TFError`; the constructors are pure (they never receive the backend
state), and a failing `shape` call leaves the scope — hence the backend —
completely untouched. -/
theorem C9_validation_errors (values : List Tensor) (v0 : Tensor) (vs : List Tensor)
    (x : Tensor) (axisT : Tensor) (t : Tensor) (dt : DataType) (s : Scope) (st : Nat)
    (hv : values = v0 :: vs) (hx : x ∈ values) (hne : x.dtype ≠ v0.dtype)
    (hdt : dt ≠ DataType.Int32 ∧ dt ≠ DataType.Int64) :
    ConcatV2.new values axisT = Except.error Error.Stub ∧
    Shape.new t [dt] = Except.error Error.Stub ∧
    shapeOp t (some dt) s = (Except.error Error.Stub, s) ∧
    Error.Stub ≠ Error.TFError st := by
  have hall := all_dtype_eq_false values v0 x hx hne
  refine ⟨?_, ?_, ?_, ?_⟩
  · subst hv
    simp [ConcatV2.new, hall]
  · cases dt <;> simp_all [Shape.new]
  · cases dt <;> simp_all [shapeOp, Shape.new]
  · exact fun h => Error.noConfusion h

/-- Closed witness for `C9_validation_errors`. -/
theorem C9_validation_errors_witness :
    ConcatV2.new [{ ident := 100, idx := 0, dtype := DataType.Int32,
                    shape := some [some 2, some 3], val := none },
                  { ident := 101, idx := 0, dtype := DataType.Float,
                    shape := some [some 2, some 3], val := none }]
        { ident := 9, idx := 0, dtype := DataType.Int32, shape := some [], val := some [0] } =
      Except.error Error.Stub ∧
    Shape.new { ident := 100, idx := 0, dtype := DataType.Int32,
                shape := some [some 2, some 3], val := none } [DataType.Float] =
      Except.error Error.Stub ∧
    shapeOp { ident := 100, idx := 0, dtype := DataType.Int32,
              shape := some [some 2, some 3], val := none } (some DataType.Float)
        { nodes := [], nextId := 0 } =
      (Except.error Error.Stub, { nodes := [], nextId := 0 }) ∧
    Error.Stub ≠ Error.TFError 0 := by
  exact C9_validation_errors
    [{ ident := 100, idx := 0, dtype := DataType.Int32,
       shape := some [some 2, some 3], val := none },
     { ident := 101, idx := 0, dtype := DataType.Float,
       shape := some [some 2, some 3], val := none }]
    { ident := 100, idx := 0, dtype := DataType.Int32,
      shape := some [some 2, some 3], val := none }
    [{ ident := 101, idx := 0, dtype := DataType.Float,
       shape := some [some 2, some 3], val := none }]
    { ident := 101, idx := 0, dtype := DataType.Float,
      shape := some [some 2, some 3], val := none }
    { ident := 9, idx := 0, dtype := DataType.Int32, shape := some [], val := some [0] }
    { ident := 100, idx := 0, dtype := DataType.Int32,
      shape := some [some 2, some 3], val := none }
    DataType.Float { nodes := [], nextId := 0 } 0
    rfl (by decide) (by decide) (by decide)

/-- C10: for every input tensor whose static rank is unknown, both `softmax`
and `log_softmax` fail immediately with the "shape of logits must be defined"
message error and leave the scope — hence the installed graph — unchanged, so
the dynamic fallback path is only ever taken for inputs of known static rank. -/
theorem C10_softmax_unknown_rank (t : Tensor) (dim : Int) (s : Scope) (h : t.shape = none) :
    softmax t dim s = (Except.error (Error.Msg softmaxShapeMsg), s) ∧
    log_softmax t dim s = (Except.error (Error.Msg softmaxShapeMsg), s) := by
  constructor <;> simp [softmax, log_softmax, softmax_helper, h]

/-- Closed witness for `C10_softmax_unknown_rank`. -/
theorem C10_softmax_unknown_rank_witness :
    softmax { ident := 0, idx := 0, dtype := DataType.Float, shape := none, val := none }
        (-1) { nodes := [], nextId := 0 } =
      (Except.error (Error.Msg softmaxShapeMsg), { nodes := [], nextId := 0 }) ∧
    log_softmax { ident := 0, idx := 0, dtype := DataType.Float, shape := none, val := none }
        (-1) { nodes := [], nextId := 0 } =
      (Except.error (Error.Msg softmaxShapeMsg), { nodes := [], nextId := 0 }) :=
  C10_softmax_unknown_rank
    { ident := 0, idx := 0, dtype := DataType.Float, shape := none, val := none }
    (-1) { nodes := [], nextId := 0 } rfl

end TfRs
